import Mathlib

/-!
Verification of the fitness repository (poirotw66/fitness) against its
natural-language specification.

The repository ships the React frontend (src/frontend, src/unnamed/part_001
... part_006); the Python FastAPI backend described in the README
(src/unnamed/part_000) is not part of the source tree.  Backend behaviour
(anthropometrics, daily aggregation, report compiler, conversation store)
is therefore modelled from the spec, with a doc comment on each such
definition saying so.  Frontend behaviour (conversation loading fallback,
image-upload guard, SSE stream assembly) is embedded directly from the
JavaScript source.

All arithmetic is over ℚ, which represents the decimal literals of the
spec (10, 6.25, 5, 161, 1.2, 1.375, 1.55, 1.725) exactly.
-/

/-! ### Anthropometrics (spec §4.3) -/

/-- Modelled from the spec: gender of a body profile
(backend models are not under src/). -/
inductive Gender where
  | male
  | female
deriving DecidableEq, Repr

/-- Modelled from the spec: activity level of a body profile, values as in
the frontend radio options (src/unnamed/part_004, activityLevelOptions). -/
inductive ActivityLevel where
  | sedentary
  | light
  | moderate
  | very_active
deriving DecidableEq, Repr

/-- Modelled from the spec (§3 data model): a body profile whose fields may
each be missing, as in the Settings form where every field starts empty. -/
structure BodyProfile where
  gender : Option Gender
  height_cm : Option ℚ
  weight_kg : Option ℚ
  age : Option ℚ
  activity_level : Option ActivityLevel
deriving DecidableEq, Repr

/-- Modelled from the spec (§7 error taxonomy). -/
inductive ProfileError where
  | IncompleteProfile
deriving DecidableEq, Repr

/-- Modelled from the spec (§4.3): the Mifflin-St Jeor formula on present
fields: male → 10·w + 6.25·h − 5·a + 5; female → 10·w + 6.25·h − 5·a − 161. -/
def bmrFormula (g : Gender) (w h a : ℚ) : ℚ :=
  10 * w + 6.25 * h - 5 * a + (match g with | .male => 5 | .female => -161)

/-- Modelled from the spec (§4.3, §7): `compute_bmr` fails with
`IncompleteProfile` when any of gender/weight/height/age is missing,
otherwise applies the formula. -/
def compute_bmr (p : BodyProfile) : Except ProfileError ℚ :=
  match p.gender, p.weight_kg, p.height_cm, p.age with
  | some g, some w, some h, some a => .ok (bmrFormula g w h a)
  | _, _, _, _ => .error .IncompleteProfile

/-- Modelled from the spec (§4.3): the activity factor table
sedentary 1.2, light 1.375, moderate 1.55, very_active 1.725; the same
factors are displayed by the frontend (src/unnamed/part_004 lines 80-85). -/
def activityFactor : ActivityLevel → ℚ
  | .sedentary => 1.2
  | .light => 1.375
  | .moderate => 1.55
  | .very_active => 1.725

/-- Modelled from the spec (§4.3): `compute_tdee(bmr, level) = bmr × factor`. -/
def compute_tdee (bmr : ℚ) (lvl : ActivityLevel) : ℚ :=
  bmr * activityFactor lvl

/-- Embedded from src/unnamed/part_004 lines 80-85: one entry of the
`activityLevelOptions` array (label/description elided as pure UI text,
`factor` is the displayed factor string). -/
structure ActivityOption where
  value : String
  factor : String
deriving DecidableEq, Repr

/-- Embedded from src/unnamed/part_004 lines 80-85 (`activityLevelOptions`). -/
def activityLevelOptions : List ActivityOption :=
  [ ⟨"sedentary", "× 1.2"⟩,
    ⟨"light", "× 1.375"⟩,
    ⟨"moderate", "× 1.55"⟩,
    ⟨"very_active", "× 1.725"⟩ ]

/-! ### Caller-side display of BMR/TDEE (frontend source) -/

/-- Embedded from src/unnamed/part_004 line 226 (Settings page):
`calculated.bmr ? bmr.toFixed(2) + " kcal" : "-"` — a JavaScript
truthiness test, so `null` (absent) and `0` both render as "-".
`fmt` abstracts `toFixed(2)`. -/
def settingsBmrText (fmt : ℚ → String) : Option ℚ → String
  | none => "-"
  | some b => if b = 0 then "-" else fmt b ++ " kcal"

/-- Embedded from src/frontend/src/components/ConversationHistory.jsx
lines 341-346 (StatsPanel): the BMR row renders only when `stats.bmr` is
truthy, i.e. present and nonzero. -/
def statsPanelShowsBmr : Option ℚ → Bool
  | none => false
  | some b => decide (b ≠ 0)

/-! ### Claim C1 -/

/-- C1: for every profile with all required fields present, `compute_bmr`
returns the male/female Mifflin-St Jeor value, `compute_tdee` multiplies by
exactly the four activity factors, and both functions are deterministic
(equal arguments give equal results). -/
theorem compute_bmr_tdee_formulas
    (w h a b : ℚ) (lvl lvl₁ : Option ActivityLevel)
    (p q : BodyProfile) (hpq : p = q) :
    compute_bmr ⟨some .male, some h, some w, some a, lvl⟩
      = .ok (10 * w + 6.25 * h - 5 * a + 5)
    ∧ compute_bmr ⟨some .female, some h, some w, some a, lvl₁⟩
      = .ok (10 * w + 6.25 * h - 5 * a - 161)
    ∧ compute_tdee b .sedentary = b * 1.2
    ∧ compute_tdee b .light = b * 1.375
    ∧ compute_tdee b .moderate = b * 1.55
    ∧ compute_tdee b .very_active = b * 1.725
    ∧ compute_bmr p = compute_bmr q
    ∧ (∀ l : ActivityLevel, compute_tdee b l = compute_tdee b l) := by
  subst hpq
  refine ⟨?_, ?_, rfl, rfl, rfl, rfl, rfl, fun _ => rfl⟩ <;>
    simp [compute_bmr, bmrFormula] <;> ring

/-- C1 witness: the theorem applied at the concrete profile
(male, 180 cm, 80 kg, 30 y, moderate). -/
theorem compute_bmr_tdee_formulas_witness :
    compute_bmr ⟨some .male, some 180, some 80, some 30, some .moderate⟩
      = .ok (10 * 80 + 6.25 * 180 - 5 * 30 + 5)
    ∧ compute_bmr ⟨some .female, some 180, some 80, some 30, some .moderate⟩
      = .ok (10 * 80 + 6.25 * 180 - 5 * 30 - 161)
    ∧ compute_tdee 1780 .sedentary = 1780 * 1.2
    ∧ compute_tdee 1780 .light = 1780 * 1.375
    ∧ compute_tdee 1780 .moderate = 1780 * 1.55
    ∧ compute_tdee 1780 .very_active = 1780 * 1.725
    ∧ compute_bmr ⟨some .male, some 180, some 80, some 30, some .moderate⟩
      = compute_bmr ⟨some .male, some 180, some 80, some 30, some .moderate⟩
    ∧ (∀ l : ActivityLevel, compute_tdee 1780 l = compute_tdee 1780 l) :=
  compute_bmr_tdee_formulas 80 180 30 1780 (some .moderate) (some .moderate)
    ⟨some .male, some 180, some 80, some 30, some .moderate⟩
    ⟨some .male, some 180, some 80, some 30, some .moderate⟩ rfl

/-! ### Claim C2 -/

/-- The profile of spec §8 Scenario A: male, 180 cm, 80 kg, 30 y, moderate. -/
def profileA : BodyProfile :=
  ⟨some .male, some 180, some 80, some 30, some .moderate⟩

/-- C2 counterexample: for Scenario A's profile the formula of spec §4.3
gives BMR = 1780, not 1742.5, and TDEE = 2759, not 2700.875 (the spec's
scenario numbers correspond to a height of 174 cm, not 180 cm). -/
theorem profileA_bmr_not_1742_5 :
    compute_bmr profileA = .ok 1780
    ∧ compute_bmr profileA ≠ .ok 1742.5
    ∧ compute_tdee 1780 .moderate = 2759
    ∧ compute_tdee 1780 .moderate ≠ 2700.875 := by
  refine ⟨?_, ?_, ?_, ?_⟩ <;>
    simp [profileA, compute_bmr, bmrFormula, compute_tdee, activityFactor] <;>
    norm_num

/-- C2 amended: for Scenario A's profile, `compute_bmr` returns exactly
1780 kcal and `compute_tdee` returns exactly 2759 kcal. -/
theorem profileA_bmr_tdee_values :
    compute_bmr profileA = .ok 1780
    ∧ compute_tdee 1780 .moderate = 2759 := by
  refine ⟨?_, ?_⟩ <;>
    simp [profileA, compute_bmr, bmrFormula, compute_tdee, activityFactor] <;>
    norm_num

/-! ### Claim C4 -/

/-- C4: a profile missing any of gender/height/weight/age makes
`compute_bmr` fail with `IncompleteProfile` (in particular it never
returns ok 0), and both frontend callers render an absent BMR as absent
("-" in Settings, no row in StatsPanel) rather than as zero. -/
theorem compute_bmr_incomplete_profile
    (p : BodyProfile) (fmt : ℚ → String)
    (h : p.gender = none ∨ p.height_cm = none ∨ p.weight_kg = none ∨
         p.age = none) :
    compute_bmr p = .error .IncompleteProfile
    ∧ compute_bmr p ≠ .ok 0
    ∧ settingsBmrText fmt none = "-"
    ∧ statsPanelShowsBmr none = false := by
  have herr : compute_bmr p = .error .IncompleteProfile := by
    unfold compute_bmr
    split
    · rcases h with h | h | h | h <;> simp_all
    · rfl
  exact ⟨herr, by simp [herr], rfl, rfl⟩

/-- C4 witness: a profile with every field missing. -/
theorem compute_bmr_incomplete_profile_witness :
    compute_bmr ⟨none, none, none, none, none⟩ = .error .IncompleteProfile
    ∧ compute_bmr ⟨none, none, none, none, none⟩ ≠ .ok 0
    ∧ settingsBmrText (fun _ => "") none = "-"
    ∧ statsPanelShowsBmr none = false :=
  compute_bmr_incomplete_profile ⟨none, none, none, none, none⟩
    (fun _ => "") (Or.inl rfl)

/-! ### Daily Log Store and Aggregation Engine (spec §3, §4.2) -/

/-- Modelled from the spec (§3): meal types of a DietEntry. -/
inductive MealType where
  | breakfast
  | lunch
  | dinner
  | snack
deriving DecidableEq, Repr

/-- Modelled from the spec (§3): a DietEntry row, immutable once created.
`date` is an abstract day code. -/
structure DietEntry where
  id : Nat
  user_id : Nat
  date : Nat
  meal_type : MealType
  food_name : String
  calories : ℚ
  protein_g : ℚ
  carbs_g : ℚ
  fat_g : ℚ
  vegetable_g : ℚ
  estimated : Bool
deriving DecidableEq, Repr

/-- Modelled from the spec (§3): an ExerciseEntry row. -/
structure ExerciseEntry where
  id : Nat
  user_id : Nat
  date : Nat
  exercise_type : String
  duration_min : ℚ
  calories_burned : ℚ
deriving DecidableEq, Repr

/-- Modelled from the spec (§2, §3): the Daily Log Store, date-indexed
diet/exercise entries per user.  Entries are append-only (no update or
delete in scope). -/
structure LogStore where
  diet : List DietEntry
  exercise : List ExerciseEntry
deriving Repr

/-- The diet entries of one (user, date). -/
def dietFor (s : LogStore) (u d : Nat) : List DietEntry :=
  s.diet.filter (fun e => e.user_id == u && e.date == d)

/-- The exercise entries of one (user, date). -/
def exerciseFor (s : LogStore) (u d : Nat) : List ExerciseEntry :=
  s.exercise.filter (fun e => e.user_id == u && e.date == d)

/-- Modelled from the spec (§3): the derived, never-persisted DailyStats
view (numeric totals; meal grouping and targets are carried separately). -/
structure DailyStats where
  calories_in : ℚ
  calories_out : ℚ
  protein : ℚ
  carbs : ℚ
  fat : ℚ
  vegetables : ℚ
deriving DecidableEq, Repr

/-- Modelled from the spec (§4.2): `get_daily_stats(user_id, date)`
recomputes every total from the current entries of that (user, date) —
a pure function of the store, so it can never serve a stale sum. -/
def get_daily_stats (s : LogStore) (u d : Nat) : DailyStats :=
  { calories_in := ((dietFor s u d).map (fun e => e.calories)).sum
    calories_out := ((exerciseFor s u d).map (fun e => e.calories_burned)).sum
    protein := ((dietFor s u d).map (fun e => e.protein_g)).sum
    carbs := ((dietFor s u d).map (fun e => e.carbs_g)).sum
    fat := ((dietFor s u d).map (fun e => e.fat_g)).sum
    vegetables := ((dietFor s u d).map (fun e => e.vegetable_g)).sum }

/-- Modelled from the spec (§3, §4.1 step 4): committing one extracted
DietEntry appends it to the store; existing entries are untouched. -/
def addDietEntry (s : LogStore) (e : DietEntry) : LogStore :=
  { s with diet := s.diet ++ [e] }

/-! ### Claim C3 -/

/-- C3: `calories_in` is exactly the sum of that (user, date)'s diet entry
calories; appending one entry for (e.user_id, e.date) shifts each
diet-derived total by exactly that entry's own field (so `calories_in`
moves by `e.calories`) and leaves `calories_out` — derived from the other
(exercise) entries — unchanged; stats of every other (user, date) are
unchanged; and the append mutates no existing entry.  Freshness is
structural: `get_daily_stats` is a pure function of the store passed in. -/
theorem daily_stats_sum_and_delta (s : LogStore) (e : DietEntry)
    (u2 d2 : Nat) (h2 : ¬(u2 = e.user_id ∧ d2 = e.date)) :
    (∀ u d, (get_daily_stats s u d).calories_in =
      ((s.diet.filter (fun x => x.user_id == u && x.date == d)).map
        (fun x => x.calories)).sum)
    ∧ get_daily_stats (addDietEntry s e) e.user_id e.date =
      { calories_in := (get_daily_stats s e.user_id e.date).calories_in
          + e.calories
        calories_out := (get_daily_stats s e.user_id e.date).calories_out
        protein := (get_daily_stats s e.user_id e.date).protein + e.protein_g
        carbs := (get_daily_stats s e.user_id e.date).carbs + e.carbs_g
        fat := (get_daily_stats s e.user_id e.date).fat + e.fat_g
        vegetables := (get_daily_stats s e.user_id e.date).vegetables
          + e.vegetable_g }
    ∧ get_daily_stats (addDietEntry s e) u2 d2 = get_daily_stats s u2 d2
    ∧ (addDietEntry s e).diet = s.diet ++ [e]
    ∧ (addDietEntry s e).exercise = s.exercise := by
  have hpf : (e.user_id == u2 && e.date == d2) = false := by
    by_contra hb
    rw [Bool.not_eq_false, Bool.and_eq_true, beq_iff_eq, beq_iff_eq] at hb
    exact h2 ⟨hb.1.symm, hb.2.symm⟩
  refine ⟨fun u d => rfl, ?_, ?_, rfl, rfl⟩
  · simp [get_daily_stats, dietFor, exerciseFor, addDietEntry,
      List.filter_append]
  · simp [get_daily_stats, dietFor, exerciseFor, addDietEntry,
      List.filter_append, hpf]

/-- A concrete diet entry used to witness the aggregation claims. -/
def sampleEntry : DietEntry :=
  ⟨1, 1, 20250101, .breakfast, "egg", 155, 13, 1, 11, 0, false⟩

/-- The empty Daily Log Store. -/
def emptyLogStore : LogStore := ⟨[], []⟩

/-- C3 witness: the theorem applied to the empty store, `sampleEntry`,
and the distinct key (2, 20250101). -/
theorem daily_stats_sum_and_delta_witness :
    (∀ u d, (get_daily_stats emptyLogStore u d).calories_in =
      ((emptyLogStore.diet.filter
        (fun x => x.user_id == u && x.date == d)).map
        (fun x => x.calories)).sum)
    ∧ get_daily_stats (addDietEntry emptyLogStore sampleEntry)
        sampleEntry.user_id sampleEntry.date =
      { calories_in := (get_daily_stats emptyLogStore sampleEntry.user_id
          sampleEntry.date).calories_in + sampleEntry.calories
        calories_out := (get_daily_stats emptyLogStore sampleEntry.user_id
          sampleEntry.date).calories_out
        protein := (get_daily_stats emptyLogStore sampleEntry.user_id
          sampleEntry.date).protein + sampleEntry.protein_g
        carbs := (get_daily_stats emptyLogStore sampleEntry.user_id
          sampleEntry.date).carbs + sampleEntry.carbs_g
        fat := (get_daily_stats emptyLogStore sampleEntry.user_id
          sampleEntry.date).fat + sampleEntry.fat_g
        vegetables := (get_daily_stats emptyLogStore sampleEntry.user_id
          sampleEntry.date).vegetables + sampleEntry.vegetable_g }
    ∧ get_daily_stats (addDietEntry emptyLogStore sampleEntry) 2 20250101 =
      get_daily_stats emptyLogStore 2 20250101
    ∧ (addDietEntry emptyLogStore sampleEntry).diet =
      emptyLogStore.diet ++ [sampleEntry]
    ∧ (addDietEntry emptyLogStore sampleEntry).exercise =
      emptyLogStore.exercise :=
  daily_stats_sum_and_delta emptyLogStore sampleEntry 2 20250101
    (by simp [sampleEntry])

/-! ### Report Compiler (spec §3, §4.4) -/

/-- Modelled from the spec (§3): a Report row — one logical row per
(user, date); regeneration overwrites `report_content` and the timestamp. -/
structure Report where
  user_id : Nat
  date : Nat
  calories_in : ℚ
  calories_out : ℚ
  protein : ℚ
  carbs : ℚ
  fat : ℚ
  bmr : Option ℚ
  tdee : Option ℚ
  report_content : String
  generated_at : Nat
deriving DecidableEq, Repr

/-- Modelled from the spec (§4.4, §7): BMR/TDEE folded into a report as
absent-or-present values, never defaulted to zero. -/
def computeBmrTdee (p : BodyProfile) : Option ℚ × Option ℚ :=
  match compute_bmr p, p.activity_level with
  | .ok b, some lvl => (some b, some (compute_tdee b lvl))
  | .ok b, none => (some b, none)
  | .error _, _ => (none, none)

/-- Whether a report row belongs to the (user, date) key. -/
def reportKey (u d : Nat) (r : Report) : Bool :=
  r.user_id == u && r.date == d

/-- Number of report rows stored for a (user, date) key. -/
def countKey (rs : List Report) (u d : Nat) : Nat :=
  rs.countP (reportKey u d)

/-- Overwrite an existing row's derived fields from a freshly generated
report, keeping its (user, date) key. -/
def overwriteFrom (r x : Report) : Report :=
  { x with
    calories_in := r.calories_in, calories_out := r.calories_out,
    protein := r.protein, carbs := r.carbs, fat := r.fat,
    bmr := r.bmr, tdee := r.tdee,
    report_content := r.report_content, generated_at := r.generated_at }

/-- Modelled from the spec (§4.4): idempotent upsert of a report row —
replace the existing (user, date) row if present, else append. -/
def upsertReport (rs : List Report) (r : Report) : List Report :=
  if rs.any (reportKey r.user_id r.date) then
    rs.map (fun x =>
      if reportKey r.user_id r.date x then overwriteFrom r x else x)
  else rs ++ [r]

/-- Modelled from the spec (§4.4): `generate_report(user_id, date)` —
fetch fresh DailyStats, hand the numeric summary to the narrative
capability `narrative`, store the text, bump `generated_at` to `t`,
and upsert the single (user, date) row. -/
def generate_report (s : LogStore) (p : BodyProfile) (rs : List Report)
    (narrative : DailyStats → String) (u d t : Nat) :
    Report × List Report :=
  let stats := get_daily_stats s u d
  let bt := computeBmrTdee p
  let r : Report :=
    { user_id := u, date := d,
      calories_in := stats.calories_in, calories_out := stats.calories_out,
      protein := stats.protein, carbs := stats.carbs, fat := stats.fat,
      bmr := bt.1, tdee := bt.2,
      report_content := narrative stats, generated_at := t }
  (r, upsertReport rs r)

/-- Iterate `generate_report` over a list of (timestamp, narrative) calls,
threading the report table. -/
def generateMany (s : LogStore) (p : BodyProfile) (u d : Nat)
    (calls : List (Nat × (DailyStats → String))) (rs : List Report) :
    List Report :=
  calls.foldl (fun acc c => (generate_report s p acc c.2 u d c.1).2) rs

theorem reportKey_overwriteFrom (u d : Nat) (r x : Report) :
    reportKey u d (overwriteFrom r x) = reportKey u d x := rfl

theorem countKey_upsert (rs : List Report) (r : Report) (u d : Nat)
    (h : countKey rs u d ≤ 1) : countKey (upsertReport rs r) u d ≤ 1 := by
  unfold countKey upsertReport
  split
  · rw [List.countP_map]
    simp only [Function.comp_def]
    have he : ∀ x ∈ rs,
        (reportKey u d
          (if reportKey r.user_id r.date x then overwriteFrom r x
            else x)) ↔ reportKey u d x := by
      intro x _
      by_cases hx : reportKey r.user_id r.date x <;>
        simp [hx, reportKey_overwriteFrom]
    exact (List.countP_congr he).trans_le h
  · rename_i hany
    rw [List.countP_append]
    by_cases hr : reportKey u d r
    · have hud : r.user_id = u ∧ r.date = d := by
        have := hr
        rw [reportKey, Bool.and_eq_true, beq_iff_eq, beq_iff_eq] at this
        exact this
      have h0 : rs.countP (reportKey u d) = 0 := by
        rw [List.countP_eq_zero]
        intro x hx hkey
        apply hany
        rw [List.any_eq_true]
        refine ⟨x, hx, ?_⟩
        rw [hud.1, hud.2]
        exact hkey
      simp [h0, List.countP_cons, hr]
    · simp [List.countP_cons, hr]
      exact h

theorem countKey_generateMany (s : LogStore) (p : BodyProfile) (u d : Nat)
    (calls : List (Nat × (DailyStats → String))) :
    ∀ rs : List Report, (∀ u2 d2, countKey rs u2 d2 ≤ 1) →
      ∀ u2 d2, countKey (generateMany s p u d calls rs) u2 d2 ≤ 1 := by
  induction calls with
  | nil => intro rs h u2 d2; exact h u2 d2
  | cons c cs ih =>
    intro rs h u2 d2
    have h1 : ∀ u2 d2,
        countKey ((generate_report s p rs c.2 u d c.1).2) u2 d2 ≤ 1 :=
      fun u2 d2 => countKey_upsert rs _ u2 d2 (h u2 d2)
    exact ih _ h1 u2 d2

/-! ### Claim C5 -/

/-- C5: `generate_report` is an idempotent upsert — starting from a table
with at most one row per key, any number of calls still leaves at most one
row per (user, date); two consecutive calls with no intervening writes
produce identical numeric fields (calories, macros, bmr, tdee), each
call's `report_content` is exactly its narrative of the same fresh stats,
and the second `generated_at` is strictly greater when its timestamp is. -/
theorem generate_report_idempotent_upsert (s : LogStore) (p : BodyProfile)
    (rs : List Report) (n1 n2 : DailyStats → String) (u d t1 t2 : Nat)
    (calls : List (Nat × (DailyStats → String)))
    (hinv : ∀ u2 d2, countKey rs u2 d2 ≤ 1) (ht : t1 < t2) :
    (∀ u2 d2, countKey (generate_report s p rs n1 u d t1).2 u2 d2 ≤ 1)
    ∧ (∀ u2 d2, countKey (generateMany s p u d calls rs) u2 d2 ≤ 1)
    ∧ (generate_report s p rs n1 u d t1).1.calories_in =
      (generate_report s p (generate_report s p rs n1 u d t1).2
        n2 u d t2).1.calories_in
    ∧ (generate_report s p rs n1 u d t1).1.calories_out =
      (generate_report s p (generate_report s p rs n1 u d t1).2
        n2 u d t2).1.calories_out
    ∧ (generate_report s p rs n1 u d t1).1.protein =
      (generate_report s p (generate_report s p rs n1 u d t1).2
        n2 u d t2).1.protein
    ∧ (generate_report s p rs n1 u d t1).1.carbs =
      (generate_report s p (generate_report s p rs n1 u d t1).2
        n2 u d t2).1.carbs
    ∧ (generate_report s p rs n1 u d t1).1.fat =
      (generate_report s p (generate_report s p rs n1 u d t1).2
        n2 u d t2).1.fat
    ∧ (generate_report s p rs n1 u d t1).1.bmr =
      (generate_report s p (generate_report s p rs n1 u d t1).2
        n2 u d t2).1.bmr
    ∧ (generate_report s p rs n1 u d t1).1.tdee =
      (generate_report s p (generate_report s p rs n1 u d t1).2
        n2 u d t2).1.tdee
    ∧ (generate_report s p rs n1 u d t1).1.report_content =
      n1 (get_daily_stats s u d)
    ∧ (generate_report s p (generate_report s p rs n1 u d t1).2
        n2 u d t2).1.report_content = n2 (get_daily_stats s u d)
    ∧ (generate_report s p rs n1 u d t1).1.generated_at = t1
    ∧ (generate_report s p (generate_report s p rs n1 u d t1).2
        n2 u d t2).1.generated_at = t2
    ∧ (generate_report s p rs n1 u d t1).1.generated_at <
      (generate_report s p (generate_report s p rs n1 u d t1).2
        n2 u d t2).1.generated_at := by
  refine ⟨fun u2 d2 => countKey_upsert rs _ u2 d2 (hinv u2 d2),
    countKey_generateMany s p u d calls rs hinv,
    rfl, rfl, rfl, rfl, rfl, rfl, rfl, rfl, rfl, rfl, rfl, ht⟩

/-- C5 witness: the theorem applied to the empty table, two constant
narratives, timestamps 10 < 20, and one iterated call. -/
theorem generate_report_idempotent_upsert_witness :
    (∀ u2 d2, countKey
      (generate_report emptyLogStore profileA [] (fun _ => "a")
        1 20250101 10).2 u2 d2 ≤ 1)
    ∧ (∀ u2 d2, countKey (generateMany emptyLogStore profileA 1 20250101
        [(30, fun _ => "c")] []) u2 d2 ≤ 1)
    ∧ (generate_report emptyLogStore profileA [] (fun _ => "a")
        1 20250101 10).1.calories_in =
      (generate_report emptyLogStore profileA
        (generate_report emptyLogStore profileA [] (fun _ => "a")
          1 20250101 10).2 (fun _ => "b") 1 20250101 20).1.calories_in
    ∧ (generate_report emptyLogStore profileA [] (fun _ => "a")
        1 20250101 10).1.calories_out =
      (generate_report emptyLogStore profileA
        (generate_report emptyLogStore profileA [] (fun _ => "a")
          1 20250101 10).2 (fun _ => "b") 1 20250101 20).1.calories_out
    ∧ (generate_report emptyLogStore profileA [] (fun _ => "a")
        1 20250101 10).1.protein =
      (generate_report emptyLogStore profileA
        (generate_report emptyLogStore profileA [] (fun _ => "a")
          1 20250101 10).2 (fun _ => "b") 1 20250101 20).1.protein
    ∧ (generate_report emptyLogStore profileA [] (fun _ => "a")
        1 20250101 10).1.carbs =
      (generate_report emptyLogStore profileA
        (generate_report emptyLogStore profileA [] (fun _ => "a")
          1 20250101 10).2 (fun _ => "b") 1 20250101 20).1.carbs
    ∧ (generate_report emptyLogStore profileA [] (fun _ => "a")
        1 20250101 10).1.fat =
      (generate_report emptyLogStore profileA
        (generate_report emptyLogStore profileA [] (fun _ => "a")
          1 20250101 10).2 (fun _ => "b") 1 20250101 20).1.fat
    ∧ (generate_report emptyLogStore profileA [] (fun _ => "a")
        1 20250101 10).1.bmr =
      (generate_report emptyLogStore profileA
        (generate_report emptyLogStore profileA [] (fun _ => "a")
          1 20250101 10).2 (fun _ => "b") 1 20250101 20).1.bmr
    ∧ (generate_report emptyLogStore profileA [] (fun _ => "a")
        1 20250101 10).1.tdee =
      (generate_report emptyLogStore profileA
        (generate_report emptyLogStore profileA [] (fun _ => "a")
          1 20250101 10).2 (fun _ => "b") 1 20250101 20).1.tdee
    ∧ (generate_report emptyLogStore profileA [] (fun _ => "a")
        1 20250101 10).1.report_content =
      (fun _ => "a") (get_daily_stats emptyLogStore 1 20250101)
    ∧ (generate_report emptyLogStore profileA
        (generate_report emptyLogStore profileA [] (fun _ => "a")
          1 20250101 10).2 (fun _ => "b") 1 20250101 20).1.report_content =
      (fun _ => "b") (get_daily_stats emptyLogStore 1 20250101)
    ∧ (generate_report emptyLogStore profileA [] (fun _ => "a")
        1 20250101 10).1.generated_at = 10
    ∧ (generate_report emptyLogStore profileA
        (generate_report emptyLogStore profileA [] (fun _ => "a")
          1 20250101 10).2 (fun _ => "b") 1 20250101 20).1.generated_at = 20
    ∧ (generate_report emptyLogStore profileA [] (fun _ => "a")
        1 20250101 10).1.generated_at <
      (generate_report emptyLogStore profileA
        (generate_report emptyLogStore profileA [] (fun _ => "a")
          1 20250101 10).2 (fun _ => "b") 1 20250101 20).1.generated_at :=
  generate_report_idempotent_upsert emptyLogStore profileA []
    (fun _ => "a") (fun _ => "b") 1 20250101 10 20 [(30, fun _ => "c")]
    (fun u2 d2 => by simp [countKey]) (by decide)

/-! ### Conversation Store transcripts (spec §3, §4.1) -/

/-- Modelled from the spec (§3): message roles. -/
inductive Role where
  | user
  | assistant
deriving DecidableEq, Repr

/-- Modelled from the spec (§3): a Message of a conversation transcript
(image ref / structured snapshot elided — they do not affect ordering). -/
structure TranscriptMsg where
  role : Role
  content : String
  created_at : Nat
deriving DecidableEq, Repr

/-- Transcript timestamps are strictly ascending. -/
def AscendingTranscript (msgs : List TranscriptMsg) : Prop :=
  List.Chain' (fun m1 m2 => m1.created_at < m2.created_at) msgs

/-- Modelled from the spec (§3, §4.1 steps 2 and 6): a turn appends the
user message and then the concatenated assistant reply, never touching
prior messages. -/
def appendTurn (msgs : List TranscriptMsg) (uc ac : String) (tu ta : Nat) :
    List TranscriptMsg :=
  msgs ++ [⟨.user, uc, tu⟩, ⟨.assistant, ac, ta⟩]

/-- Modelled from the spec (§4.1): the chat turn's transcript append. -/
def chatTurnAppend (msgs : List TranscriptMsg) (uc ac : String)
    (tu ta : Nat) : List TranscriptMsg :=
  appendTurn msgs uc ac tu ta

/-- Modelled from the spec (§4.1): `record_exercise` with a conversation id
appends a synthetic user+assistant pair, the same append discipline. -/
def recordExerciseAppend (msgs : List TranscriptMsg) (uc ac : String)
    (tu ta : Nat) : List TranscriptMsg :=
  appendTurn msgs uc ac tu ta

/-- Modelled from the spec (§4.1): a successful image upload appends a
synthetic user+assistant pair, the same append discipline. -/
def imageUploadAppend (msgs : List TranscriptMsg) (uc ac : String)
    (tu ta : Nat) : List TranscriptMsg :=
  appendTurn msgs uc ac tu ta

theorem ascending_appendTurn (msgs : List TranscriptMsg) (uc ac : String)
    (tu ta : Nat) (hasc : AscendingTranscript msgs)
    (hlast : ∀ m ∈ msgs, m.created_at < tu) (hta : tu < ta) :
    AscendingTranscript (appendTurn msgs uc ac tu ta) := by
  unfold AscendingTranscript appendTurn
  rw [List.chain'_append]
  refine ⟨hasc, ?_, ?_⟩
  · simp [hta]
  · intro x hx y hy
    simp only [List.head?_cons, Option.mem_def, Option.some.injEq] at hy
    subst hy
    exact hlast x (List.mem_of_mem_getLast? hx)

/-! ### Claim C6 -/

/-- C6: each message-appending operation (chat turn, record_exercise
synthetic pair, image-upload synthetic pair) is append-only — the prior
transcript is preserved verbatim as a prefix — and, given fresh
timestamps, it keeps `created_at` strictly ascending with the turn's
assistant timestamp ≥ its user timestamp. -/
theorem transcript_append_only_ascending (msgs : List TranscriptMsg)
    (uc ac : String) (tu ta : Nat) (hasc : AscendingTranscript msgs)
    (hlast : ∀ m ∈ msgs, m.created_at < tu) (hta : tu < ta) :
    chatTurnAppend msgs uc ac tu ta =
      msgs ++ [⟨.user, uc, tu⟩, ⟨.assistant, ac, ta⟩]
    ∧ AscendingTranscript (chatTurnAppend msgs uc ac tu ta)
    ∧ AscendingTranscript (recordExerciseAppend msgs uc ac tu ta)
    ∧ AscendingTranscript (imageUploadAppend msgs uc ac tu ta)
    ∧ (chatTurnAppend msgs uc ac tu ta).take msgs.length = msgs
    ∧ tu ≤ ta := by
  refine ⟨rfl, ?_, ?_, ?_, ?_, Nat.le_of_lt hta⟩ <;>
    first
      | exact ascending_appendTurn msgs uc ac tu ta hasc hlast hta
      | simp [chatTurnAppend, appendTurn]

/-- C6 witness: the theorem applied to a one-message transcript with
timestamps 1 < 2 < 3. -/
theorem transcript_append_only_ascending_witness :
    chatTurnAppend [⟨.user, "hi", 1⟩] "u" "a" 2 3 =
      [⟨.user, "hi", 1⟩] ++ [⟨.user, "u", 2⟩, ⟨.assistant, "a", 3⟩]
    ∧ AscendingTranscript (chatTurnAppend [⟨.user, "hi", 1⟩] "u" "a" 2 3)
    ∧ AscendingTranscript
      (recordExerciseAppend [⟨.user, "hi", 1⟩] "u" "a" 2 3)
    ∧ AscendingTranscript (imageUploadAppend [⟨.user, "hi", 1⟩] "u" "a" 2 3)
    ∧ (chatTurnAppend [⟨.user, "hi", 1⟩] "u" "a" 2 3).take
        ([⟨.user, "hi", 1⟩] : List TranscriptMsg).length = [⟨.user, "hi", 1⟩]
    ∧ 2 ≤ 3 :=
  transcript_append_only_ascending [⟨.user, "hi", 1⟩] "u" "a" 2 3
    (by simp [AscendingTranscript])
    (by intro m hm; simp at hm; subst hm; decide) (by decide)

/-! ### Streamed turn output (spec §4.1 step 6, §6) -/

/-- Modelled from the spec (§6): one fragment of the streamed chat
response — incremental content, the terminal control fragment carrying
the resolved conversation id, or the end-of-stream sentinel. -/
inductive Fragment where
  | content (s : String)
  | control (conversation_id : Nat)
  | done
deriving DecidableEq, Repr

/-- The conversation id carried by a fragment, if any. -/
def carriesId : Fragment → Option Nat
  | .content _ => none
  | .control i => some i
  | .done => none

/-- Modelled from the spec (§4.1 step 6): the full fragment sequence of
one streamed turn — the reply's content fragments in order, then the one
terminal control fragment with the resolved conversation id, then the
sentinel. -/
def turnStream (reply : List String) (convId : Nat) : List Fragment :=
  (reply.map Fragment.content) ++ [Fragment.control convId, Fragment.done]

/-! ### Claim C7 -/

/-- C7: a streamed turn is content fragments terminated by the sentinel;
exactly one fragment carries a conversation id, it carries the resolved
id, it sits after every content fragment (no fragment before the end
carries any id, let alone a different one), so a caller learns the id
exactly once. -/
theorem turnStream_single_terminal_id (reply : List String) (convId : Nat) :
    turnStream reply convId =
      (reply.map Fragment.content) ++ [Fragment.control convId, Fragment.done]
    ∧ (turnStream reply convId).filterMap carriesId = [convId]
    ∧ (∀ f ∈ reply.map Fragment.content, carriesId f = none)
    ∧ (turnStream reply convId).getLast? = some Fragment.done := by
  refine ⟨rfl, ?_, ?_, ?_⟩
  · have hnil : (reply.map Fragment.content).filterMap carriesId = [] := by
      rw [List.filterMap_eq_nil_iff]
      intro f hf
      obtain ⟨s, _, rfl⟩ := List.mem_map.mp hf
      rfl
    simp [turnStream, List.filterMap_append, hnil, carriesId]
  · intro f hf
    obtain ⟨s, _, rfl⟩ := List.mem_map.mp hf
    rfl
  · simp [turnStream]

/-! ### Client conversation loading (src/unnamed/part_002, Chat page) -/

/-- Embedded from src/unnamed/part_002 lines 283-296: the nutrition
snapshot attached to image-analysis messages. -/
structure NutritionData where
  food_name : String
  calories : ℚ
  protein : ℚ
  carbs : ℚ
  fat : ℚ
deriving DecidableEq, Repr

/-- Embedded from src/unnamed/part_002 lines 104-111: the message fields
the Chat page keeps when formatting a loaded conversation. -/
structure ChatMsg where
  role : String
  content : String
  created_at : String
  image : Option String
  nutritionData : Option NutritionData
deriving DecidableEq, Repr

/-- A conversation as returned by GET /chat/conversations/id. -/
structure ServerConv where
  id : Nat
  messages : List ChatMsg
deriving DecidableEq, Repr

/-- One row of GET /chat/conversations (newest first). -/
structure ConvSummary where
  id : Nat
  date : String
  preview : String
deriving DecidableEq, Repr

/-- The server as the Chat page sees it: conversation fetch (none models
the ConversationNotFound error) and the newest-first conversation list. -/
structure ServerEnv where
  fetchConv : Nat → Option ServerConv
  convList : List ConvSummary

/-- The Chat page state touched by conversation loading: the
`currentConversationId` and `messages` React state and the
`lastConversationId` localStorage slot. -/
structure ClientState where
  currentConversationId : Option Nat
  messages : List ChatMsg
  lastConversationIdLS : Option Nat
deriving DecidableEq, Repr

/-- Embedded from src/unnamed/part_002 lines 104-111: loaded messages are
mapped field-by-field into the display format. -/
def formatMessages (msgs : List ChatMsg) : List ChatMsg :=
  msgs.map (fun m =>
    { role := m.role, content := m.content, created_at := m.created_at,
      image := m.image, nutritionData := m.nutritionData })

/-- Embedded from src/unnamed/part_002 lines 80-91
(loadConversationHistory): when the conversation list is nonempty, load
the most recent conversation through the loader `loadK`; otherwise leave
the state alone. -/
def loadConversationHistory (env : ServerEnv)
    (loadK : Nat → ClientState → ClientState) (st : ClientState) :
    ClientState :=
  match env.convList with
  | [] => st
  | c :: _ => loadK c.id st

/-- Embedded from src/unnamed/part_002 lines 93-122 (loadConversation):
on success set the current conversation id, cache it in localStorage and
show the formatted messages; on error remove the cached pointer and fall
back to `loadConversationHistory`.  `fuel` bounds the client-server
recursion (the source recurses unboundedly; two levels cover the claim's
scenario of one stale pointer plus one live fallback). -/
def loadConversation (env : ServerEnv) :
    Nat → Nat → ClientState → ClientState
  | 0, _, st => st
  | fuel + 1, cid, st =>
    match env.fetchConv cid with
    | some conv =>
      { currentConversationId := some conv.id,
        messages := formatMessages conv.messages,
        lastConversationIdLS := some conv.id }
    | none =>
      loadConversationHistory env (loadConversation env fuel)
        { st with lastConversationIdLS := none }

/-- Embedded from src/unnamed/part_002 lines 40-61 (loadOnMount): try the
cached localStorage pointer first; without one, load the latest
conversation from the server list. -/
def loadOnMount (env : ServerEnv) (fuel : Nat) (st : ClientState) :
    ClientState :=
  match st.lastConversationIdLS with
  | some cid => loadConversation env fuel cid st
  | none => loadConversationHistory env (loadConversation env fuel) st

/-! ### Claim C8 -/

/-- C8: when the cached last-conversation pointer fails to load
(ConversationNotFound), the client removes `lastConversationId` from
localStorage and falls back to the newest existing conversation; with no
conversations it keeps its (empty-on-mount) message list and the cleared
pointer; and on mount the cached pointer is only the starting hint fed to
this very fallback. -/
theorem conversation_notfound_fallback (env : ServerEnv) (cid : Nat)
    (st : ClientState) (fuel : Nat) (c : ConvSummary)
    (rest : List ConvSummary) (conv : ServerConv)
    (hmiss : env.fetchConv cid = none) :
    (env.convList = [] →
      loadConversation env (fuel + 2) cid st =
        { st with lastConversationIdLS := none })
    ∧ (env.convList = c :: rest → env.fetchConv c.id = some conv →
      loadConversation env (fuel + 2) cid st =
        { currentConversationId := some conv.id,
          messages := formatMessages conv.messages,
          lastConversationIdLS := some conv.id })
    ∧ (st.lastConversationIdLS = some cid →
      loadOnMount env (fuel + 2) st = loadConversation env (fuel + 2) cid st)
    := by
  refine ⟨?_, ?_, ?_⟩
  · intro hnil
    simp [loadConversation, hmiss, loadConversationHistory, hnil]
  · intro hcons hc
    simp [loadConversation, hmiss, loadConversationHistory, hcons, hc]
  · intro hls
    simp [loadOnMount, hls]

/-- A concrete server with conversation 7 only, used to witness C8. -/
def sampleEnv : ServerEnv :=
  { fetchConv := fun n => if n == 7 then some ⟨7, []⟩ else none,
    convList := [⟨7, "2025-01-01", "hi"⟩] }

/-- The Chat page state on mount, carrying a stale cached pointer to the
deleted conversation 3. -/
def mountState : ClientState := ⟨none, [], some 3⟩

/-- C8 witness: the theorem applied to `sampleEnv`, the stale pointer 3,
and the live newest conversation 7. -/
theorem conversation_notfound_fallback_witness :
    (sampleEnv.convList = [] →
      loadConversation sampleEnv 2 3 mountState =
        { mountState with lastConversationIdLS := none })
    ∧ (sampleEnv.convList = ⟨7, "2025-01-01", "hi"⟩ :: [] →
      sampleEnv.fetchConv (7 : Nat) = some ⟨7, []⟩ →
      loadConversation sampleEnv 2 3 mountState =
        { currentConversationId := some 7,
          messages := formatMessages ([] : List ChatMsg),
          lastConversationIdLS := some 7 })
    ∧ (mountState.lastConversationIdLS = some 3 →
      loadOnMount sampleEnv 2 mountState =
        loadConversation sampleEnv 2 3 mountState) :=
  conversation_notfound_fallback sampleEnv 3 mountState 0
    ⟨7, "2025-01-01", "hi"⟩ [] ⟨7, []⟩ rfl

/-! ### Image upload guard (src/frontend/src/pages/Chat.jsx lines 99-118,
src/unnamed/part_002 lines 225-244) -/

/-- A file chosen in the image picker (only its byte size matters here). -/
structure UploadFile where
  size : Nat
deriving DecidableEq, Repr

/-- Embedded from handleImageSelect (identical in both Chat pages): with
no file nothing happens; a file over 10·1024·1024 bytes triggers an alert
and returns before setting the selection; otherwise the file becomes the
selection once its preview loads. -/
def handleImageSelect (selected : Option UploadFile)
    (file : Option UploadFile) : Option UploadFile :=
  match file with
  | none => selected
  | some f => if f.size > 10 * 1024 * 1024 then selected else some f

/-- Embedded from handleImageUpload: it returns immediately with no
request when nothing is selected; otherwise it issues exactly one
POST /api/upload/image request carrying the selected file and meal type
and clears the selection. -/
def handleImageUpload (selected : Option UploadFile) (meal : String) :
    List (UploadFile × String) × Option UploadFile :=
  match selected with
  | none => ([], none)
  | some f => ([(f, meal)], none)

/-- The user interactions that touch the image selection. -/
inductive ChatEvent where
  | select (file : Option UploadFile)
  | removeImage
  | upload (meal : String)
deriving Repr

/-- One interaction: the new selection and the requests it issues
(embedded from handleImageSelect / handleRemoveImage /
handleImageUpload). -/
def stepImage (selected : Option UploadFile) :
    ChatEvent → Option UploadFile × List (UploadFile × String)
  | .select f => (handleImageSelect selected f, [])
  | .removeImage => (none, [])
  | .upload meal =>
    ((handleImageUpload selected meal).2, (handleImageUpload selected meal).1)

/-- Run a sequence of interactions, accumulating issued requests. -/
def runImage : Option UploadFile → List ChatEvent →
    Option UploadFile × List (UploadFile × String)
  | s, [] => (s, [])
  | s, e :: es =>
    ((runImage (stepImage s e).1 es).1,
      (stepImage s e).2 ++ (runImage (stepImage s e).1 es).2)

theorem runImage_size_bound (events : List ChatEvent) :
    ∀ s : Option UploadFile,
      (∀ f, s = some f → f.size ≤ 10 * 1024 * 1024) →
      (∀ q ∈ (runImage s events).2, q.1.size ≤ 10 * 1024 * 1024)
      ∧ (∀ f, (runImage s events).1 = some f →
          f.size ≤ 10 * 1024 * 1024) := by
  induction events with
  | nil =>
    intro s hs
    exact ⟨by simp [runImage], by simpa [runImage] using hs⟩
  | cons e es ih =>
    intro s hs
    have hstep : ∀ f, (stepImage s e).1 = some f →
        f.size ≤ 10 * 1024 * 1024 := by
      cases e with
      | select file =>
        cases file with
        | none => simpa [stepImage, handleImageSelect] using hs
        | some f =>
          by_cases hf : f.size > 10 * 1024 * 1024
          · simpa [stepImage, handleImageSelect, hf] using hs
          · intro g hg
            simp [stepImage, handleImageSelect, hf] at hg
            subst hg
            omega
      | removeImage => simp [stepImage]
      | upload meal => cases s <;> simp [stepImage, handleImageUpload]
    have hreq : ∀ q ∈ (stepImage s e).2, q.1.size ≤ 10 * 1024 * 1024 := by
      cases e with
      | select file => simp [stepImage]
      | removeImage => simp [stepImage]
      | upload meal =>
        cases hsel : s with
        | none => simp [stepImage, handleImageUpload]
        | some f =>
          intro q hq
          simp [stepImage, handleImageUpload] at hq
          subst hq
          exact hs f hsel
    obtain ⟨h1, h2⟩ := ih (stepImage s e).1 hstep
    refine ⟨?_, h2⟩
    intro q hq
    rw [runImage, List.mem_append] at hq
    rcases hq with hq | hq
    · exact hreq q hq
    · exact h1 q hq

/-! ### Claim C9 -/

/-- C9: an oversize file (more than 10·1024·1024 bytes) never changes the
selection, `handleImageUpload` issues nothing with no selection, every
request ever issued from a fresh page carries a file within the limit,
and in particular no request for the oversize file is ever issued. -/
theorem oversize_image_never_uploaded (sel : Option UploadFile)
    (f : UploadFile) (meal m : String) (events : List ChatEvent)
    (hf : f.size > 10 * 1024 * 1024) :
    handleImageSelect sel (some f) = sel
    ∧ handleImageUpload none meal = ([], none)
    ∧ (∀ q ∈ (runImage none events).2, q.1.size ≤ 10 * 1024 * 1024)
    ∧ (f, m) ∉ (runImage none events).2 := by
  have hrun := (runImage_size_bound events none (by simp)).1
  refine ⟨by simp [handleImageSelect, hf], rfl, hrun, ?_⟩
  intro hmem
  have := hrun (f, m) hmem
  simp at this
  omega

/-- C9 witness: an 11-MB file is selected then an upload is attempted;
the run issues no request at all. -/
theorem oversize_image_never_uploaded_witness :
    handleImageSelect none (some ⟨11534336⟩) = none
    ∧ handleImageUpload none "snack" = ([], none)
    ∧ (∀ q ∈ (runImage none [ChatEvent.select (some ⟨11534336⟩),
        ChatEvent.upload "snack"]).2, q.1.size ≤ 10 * 1024 * 1024)
    ∧ ((⟨11534336⟩ : UploadFile), "snack") ∉
      (runImage none [ChatEvent.select (some ⟨11534336⟩),
        ChatEvent.upload "snack"]).2 :=
  oversize_image_never_uploaded none ⟨11534336⟩ "snack" "snack"
    [ChatEvent.select (some ⟨11534336⟩), ChatEvent.upload "snack"]
    (by decide)

/-! ### SSE stream assembly (src/frontend/src/pages/Chat.jsx lines 55-82,
src/unnamed/part_002 lines 165-208) -/

/-- The shape of one parsed SSE JSON payload as consumed by handleSend:
an optional `content` string and an optional `conversation_id`.
`JSON.parse` is a browser capability: it enters the model as the oracle
`parse`, with `none` standing for a parse error. -/
structure SSEData where
  content : Option String
  conversation_id : Option Nat
deriving DecidableEq, Repr

/-- The stream-loop accumulator of handleSend: the assistant message
content assembled so far and the conversation id received so far. -/
structure StreamAcc where
  assistantContent : String
  receivedConversationId : Option Nat
deriving DecidableEq, Repr

/-- Embedded from src/unnamed/part_002 lines 172-206: process one decoded
line.  Only lines starting with "data: " are considered; the
`startsWith` test is compiled as equality of the first six characters;
the payload after the 6-character prefix is skipped when it is the
"[DONE]" sentinel
or fails to parse; a truthy `content` is appended to the assistant
message; a truthy `conversation_id` replaces the received id.  (JavaScript
truthiness: the empty string and 0 are falsy.) -/
def processLine (parse : String → Option SSEData) (acc : StreamAcc)
    (line : String) : StreamAcc :=
  if line.take 6 = "data: " then
    let data := line.drop 6
    if data = "[DONE]" then acc
    else
      match parse data with
      | none => acc
      | some parsed =>
        let acc1 :=
          match parsed.content with
          | some c =>
            if c = "" then acc
            else { acc with assistantContent := acc.assistantContent ++ c }
          | none => acc
        match parsed.conversation_id with
        | some cid =>
          if cid = 0 then acc1
          else { acc1 with receivedConversationId := some cid }
        | none => acc1
  else acc

/-- Embedded from src/unnamed/part_002 lines 160-208: the stream loop
folds `processLine` over the decoded lines, starting from the empty
assistant message and no received conversation id. -/
def runStream (parse : String → Option SSEData) (lines : List String) :
    StreamAcc :=
  lines.foldl (processLine parse) ⟨"", none⟩

/-- The content contributed by one line: present exactly for well-formed
"data: "-prefixed JSON fragments other than the sentinel that carry a
`content` field. -/
def lineContent (parse : String → Option SSEData) (line : String) :
    Option String :=
  if line.take 6 = "data: " ∧ line.drop 6 ≠ "[DONE]" then
    (parse (line.drop 6)).bind (fun p => p.content)
  else none

theorem processLine_content (parse : String → Option SSEData)
    (acc : StreamAcc) (line : String) :
    (processLine parse acc line).assistantContent =
      acc.assistantContent ++ ((lineContent parse line).getD "") := by
  unfold processLine lineContent
  by_cases h1 : line.take 6 = "data: "
  · by_cases h2 : line.drop 6 = "[DONE]"
    · simp [h1, h2]
    · cases hp : parse (line.drop 6) with
      | none => simp [h1, h2, hp]
      | some parsed =>
        cases hc : parsed.content with
        | none =>
          cases hci : parsed.conversation_id with
          | none => simp [h1, h2, hp, hc, hci]
          | some cid =>
            by_cases hcid : cid = 0 <;> simp [h1, h2, hp, hc, hci, hcid]
        | some c =>
          by_cases hce : c = ""
          · cases hci : parsed.conversation_id with
            | none => simp [h1, h2, hp, hc, hce, hci]
            | some cid =>
              by_cases hcid : cid = 0 <;>
                simp [h1, h2, hp, hc, hce, hci, hcid]
          · cases hci : parsed.conversation_id with
            | none => simp [h1, h2, hp, hc, hce, hci]
            | some cid =>
              by_cases hcid : cid = 0 <;>
                simp [h1, h2, hp, hc, hce, hci, hcid]
  · simp [h1]

theorem foldl_processLine_content (parse : String → Option SSEData)
    (lines : List String) :
    ∀ acc : StreamAcc,
      (lines.foldl (processLine parse) acc).assistantContent =
        (lines.filterMap (lineContent parse)).foldl
          (fun a b => a ++ b) acc.assistantContent := by
  induction lines with
  | nil => intro acc; rfl
  | cons l ls ih =>
    intro acc
    rw [List.foldl_cons, ih]
    cases hl : lineContent parse l with
    | none =>
      have := processLine_content parse acc l
      rw [hl] at this
      simp only [Option.getD_none, String.append_empty] at this
      rw [List.filterMap_cons, hl, this]
    | some c =>
      have := processLine_content parse acc l
      rw [hl] at this
      simp only [Option.getD_some] at this
      rw [List.filterMap_cons, hl, List.foldl_cons, this]

/-! ### Claim C10 -/

/-- C10: for a stream of decoded lines ending in the "data: [DONE]"
sentinel, the assembled assistant content is the in-order concatenation
of the `content` fields of the well-formed "data: "-prefixed JSON
fragments before the sentinel; a line that fails to parse (or lacks a
content field) contributes nothing — deleting it from the stream leaves
the assembled content unchanged — and never aborts later processing. -/
theorem sse_stream_assembles_content (parse : String → Option SSEData)
    (body pre post : List String) (bad : String) (acc : StreamAcc)
    (hbad : lineContent parse bad = none) :
    (runStream parse (body ++ ["data: [DONE]"])).assistantContent =
      (body.filterMap (lineContent parse)).foldl (fun a b => a ++ b) ""
    ∧ (processLine parse acc bad).assistantContent = acc.assistantContent
    ∧ (runStream parse (pre ++ bad :: post)).assistantContent =
      (runStream parse (pre ++ post)).assistantContent := by
  have hdone : lineContent parse "data: [DONE]" = none := by
    unfold lineContent
    rw [if_neg]
    intro hcontra
    exact hcontra.2 rfl
  refine ⟨?_, ?_, ?_⟩
  · rw [runStream, foldl_processLine_content]
    rw [List.filterMap_append]
    simp [hdone]
  · have := processLine_content parse acc bad
    rw [hbad] at this
    simpa using this
  · rw [runStream, runStream, foldl_processLine_content,
      foldl_processLine_content]
    rw [List.filterMap_append, List.filterMap_append, List.filterMap_cons,
      hbad]

/-- A concrete parse oracle for the C10 witness: payload "A" parses to
content "he", payload "B" to content "llo" with conversation id 5,
anything else fails to parse. -/
def sampleParse (s : String) : Option SSEData :=
  if s = "A" then some ⟨some "he", none⟩
  else if s = "B" then some ⟨some "llo", some 5⟩
  else none

/-- C10 witness: two content fragments, one malformed line and the
sentinel, with the explicit parse oracle `sampleParse`; dropping the
malformed line changes nothing. -/
theorem sse_stream_assembles_content_witness :
    (runStream sampleParse
      (["data: A", "data: bad", "data: B"] ++ ["data: [DONE]"])
      ).assistantContent =
      ((["data: A", "data: bad", "data: B"] : List String).filterMap
        (lineContent sampleParse)).foldl (fun a b => a ++ b) ""
    ∧ (processLine sampleParse ⟨"he", none⟩ "data: bad").assistantContent =
      (⟨"he", none⟩ : StreamAcc).assistantContent
    ∧ (runStream sampleParse
        (["data: A"] ++ "data: bad" :: ["data: B"])).assistantContent =
      (runStream sampleParse (["data: A"] ++ ["data: B"])).assistantContent :=
  sse_stream_assembles_content sampleParse
    ["data: A", "data: bad", "data: B"] ["data: A"] ["data: B"]
    "data: bad" ⟨"he", none⟩ (by decide)
